import Mathlib

/-!
Verification of the dual-folio membership identifier subsystem of the
youth-benefits registration service (`registroJovenLambda`).

The Python source is shallowly embedded: pure helpers become Lean
functions on `String`/`Nat`, the relational store becomes an explicit
record of committed and pending (in-transaction, not yet committed)
rows, external collaborators (KMS encryption, bcrypt, SHA-256, S3) are
modelled as opaque-looking but computable stand-in functions whose
outputs the folio logic never inspects, and each fallible external call
is driven by an explicit fault flag.  `datetime.utcnow()` is passed in
as explicit year/month/timestamp arguments.
-/

namespace RegistroJoven

/-- Decimal digit test on a character; model of Python `str.isdigit`
restricted to ASCII (`'0'` through `'9'`). -/
def isDigitChar (c : Char) : Bool := 48 ≤ c.toNat && c.toNat ≤ 57

/-- Numeric value of a decimal digit character (`'0'` ↦ 0, …, `'9'` ↦ 9). -/
def digitVal (c : Char) : Nat := c.toNat - 48

/-- Value of a list of decimal digit characters, most significant first
(Horner evaluation); model of Python `int(...)` on an all-digit string. -/
def parseNum (l : List Char) : Nat := l.foldl (fun a c => a * 10 + digitVal c) 0

/-- Fuel-driven decimal rendering of a natural number, most significant
digit first; the fuel only makes the recursion structural and never runs
out when it starts at `n + 1`. -/
def natToStringCore : Nat → Nat → List Char
  | 0, _ => []
  | fuel + 1, n =>
    if n < 10 then [Nat.digitChar n]
    else natToStringCore fuel (n / 10) ++ [Nat.digitChar (n % 10)]

/-- Decimal rendering of a natural number; model of Python `str` on a
nonnegative `int` (`str(0) = "0"`, no leading zeros otherwise). -/
def natToString (n : Nat) : String := ⟨natToStringCore (n + 1) n⟩

/-- Model of Python `str.zfill(w)` on a sign-free string: left-pad with
`'0'` up to width `w`, identity when the string is already long enough. -/
def zfill (s : String) (w : Nat) : String :=
  ⟨List.replicate (w - s.data.length) '0' ++ s.data⟩

/-- Model of Python `s[-n:]`: the last `n` characters (the whole string
when it is shorter than `n`). -/
def lastN (s : String) (n : Nat) : String := ⟨s.data.drop (s.data.length - n)⟩

/-- Model of Python `s.replace(' ', '').replace('-', '')`: drop every
space and dash. -/
def removeDashSpace (s : String) : String :=
  ⟨s.data.filter (fun c => !(c == ' ') && !(c == '-'))⟩

/-- Model of Python `str.isdigit` restricted to ASCII input: nonempty
and every character a decimal digit. -/
def pyIsdigit (s : String) : Bool := !s.data.isEmpty && s.data.all isDigitChar

/-- Model of Python `int(s)`: an optional single `-` or `+` sign
followed by at least one decimal digit; `none` models the `ValueError`
raised otherwise.  Surrounding whitespace, underscore digit grouping
and non-ASCII decimal digits are outside the modelled domain. -/
def pyIntSigned (s : String) : Option Int :=
  match s.data with
  | [] => none
  | c :: rest =>
    if c == '-' then
      if !rest.isEmpty && rest.all isDigitChar then some (-(parseNum rest : Int)) else none
    else if c == '+' then
      if !rest.isEmpty && rest.all isDigitChar then some ((parseNum rest : Int)) else none
    else
      if isDigitChar c && rest.all isDigitChar then some ((parseNum (c :: rest) : Int)) else none

/-- Model of Python `str` on an `int`: a `-` sign for negatives, then
the decimal digits. -/
def pyStr (i : Int) : String :=
  if i < 0 then "-" ++ natToString i.natAbs else natToString i.toNat

/-- Model of Python `str.zfill(w)` on a possibly signed string: the
zeros are inserted after a leading sign. -/
def zfill_py (s : String) (w : Nat) : String :=
  match s.data with
  | [] => zfill s w
  | c :: rest =>
    if c == '-' || c == '+' then
      ⟨c :: (List.replicate (w - s.data.length) '0' ++ rest)⟩
    else zfill s w

/-- Model of Python truthiness of an optional string field read with
`body.get(...)`: `None` and `""` are falsy. -/
def pyTruthy : Option String → Bool
  | none => false
  | some s => !(s == "")

/-- One summand of the code's Luhn loop (`calculate_luhn`, source lines
115–117): position `i` from the right, digit `d`; even positions are
doubled and reduced by 9 when the doubled value reaches 10. -/
def luhnTerm (i d : Nat) : Nat :=
  let n := if i % 2 = 0 then d * 2 else d
  if n < 10 then n else n - 9

/-- Embedding of `calculate_luhn` (source lines 111–118): extract the
decimal digits of `s`, walk them from least significant to most
significant with `enumerate(reversed(digits))`, sum the Luhn terms, and
return `(10 - checksum % 10) % 10`. -/
def calculate_luhn (s : String) : Nat :=
  let digits := (s.data.filter isDigitChar).map digitVal
  let checksum := (digits.reverse.enum.foldl (fun acc p => acc + luhnTerm p.1 p.2) 0)
  (10 - checksum % 10) % 10

/-- Embedding of `generate_new_folio` (source lines 120–139) with the
current UTC year and month passed explicitly:
`BJ-YYYY-MM-NNNNNN-C`, check digit computed on the dash-free base. -/
def generate_new_folio (year month user_id : Nat) : String :=
  let monthStr := zfill (natToString month) 2
  let seq := zfill (natToString user_id) 6
  let base := "BJ" ++ natToString year ++ monthStr ++ seq
  let check_digit := calculate_luhn base
  "BJ-" ++ natToString year ++ "-" ++ monthStr ++ "-" ++ seq ++ "-" ++ natToString check_digit

/-- The fixed 12-digit legacy folio prefix. -/
def legacyPrefix : String := "123456789012"

/-- Model of `ORDER BY folio_legacy DESC LIMIT 1`: the lexicographically
greatest element of the list, `none` on the empty list. -/
def sqlMaxDesc (l : List String) : Option String :=
  l.foldl (fun acc f => match acc with
    | none => some f
    | some m => if m < f then some f else some m) none

/-- Embedding of `get_next_legacy_folio` (source lines 141–173).  The
argument is the multiset of non-null `folio_legacy` values of the
`Tarjeta` table; the SQL `LIKE '123456789012%'` filter, the descending
scan, the `int(last_folio[-4:])` parse (whose `ValueError` on a
non-digit tail is an error), the exhaustion check at 9999 and the
zero-padded increment are all translated directly. -/
def get_next_legacy_folio (folios : List String) : Except String String :=
  match sqlMaxDesc (folios.filter (fun fo => legacyPrefix.data.isPrefixOf fo.data)) with
  | some last_folio =>
    match pyIntSigned (lastN last_folio 4) with
    | none => .error "invalid literal for int()"
    | some last_number =>
      let next_number := last_number + 1
      if next_number > 9999 then
        .error "Legacy folio sequence exhausted (max 9999)"
      else
        .ok (legacyPrefix ++ zfill_py (pyStr next_number) 4)
  | none => .ok "1234567890120001"

/-- Embedding of `validate_legacy_folio` (source lines 175–200): strip
spaces and dashes, then check, in order, length 16, all digits, the
fixed prefix, and the last-four range `0001`–`9999`; the returned pair
is `(ok, reason)`. -/
def validate_legacy_folio (folio : String) : Bool × String :=
  let folio := removeDashSpace folio
  if folio.data.length ≠ 16 then
    (false, "Folio debe tener 16 dígitos")
  else if !(pyIsdigit folio) then
    (false, "Folio debe contener solo números")
  else if !(legacyPrefix.data.isPrefixOf folio.data) then
    (false, "Formato de folio inválido")
  else
    let last_four := parseNum (lastN folio 4).data
    if last_four < 1 ∨ last_four > 9999 then
      (false, "Número de folio fuera de rango válido")
    else
      (true, "Válido")

/-! ### Decimal rendering and parsing toolkit -/

theorem digitChar_isDigitChar : ∀ m : Nat, m < 10 → isDigitChar (Nat.digitChar m) = true := by
  decide

theorem digitVal_digitChar : ∀ m : Nat, m < 10 → digitVal (Nat.digitChar m) = m := by
  decide

theorem isDigitChar_bounds {c : Char} (h : isDigitChar c = true) :
    48 ≤ c.toNat ∧ c.toNat ≤ 57 := by
  simp [isDigitChar] at h
  omega

theorem digitVal_lt_10 {c : Char} (h : isDigitChar c = true) : digitVal c < 10 := by
  have := isDigitChar_bounds h
  unfold digitVal
  omega

theorem char_eq_of_toNat_eq {c d : Char} (h : c.toNat = d.toNat) : c = d :=
  Char.eq_of_val_eq (UInt32.ext h)

theorem digit_char_eq_of_digitVal_eq {c d : Char} (hc : isDigitChar c = true)
    (hd : isDigitChar d = true) (h : digitVal c = digitVal d) : c = d := by
  have h1 := isDigitChar_bounds hc
  have h2 := isDigitChar_bounds hd
  unfold digitVal at h
  exact char_eq_of_toNat_eq (by omega)

theorem parseNum_nil : parseNum [] = 0 := rfl

theorem parseNum_append_singleton (xs : List Char) (c : Char) :
    parseNum (xs ++ [c]) = parseNum xs * 10 + digitVal c := by
  simp [parseNum, List.foldl_append]

theorem natToStringCore_succ (f n : Nat) :
    natToStringCore (f + 1) n =
      if n < 10 then [Nat.digitChar n]
      else natToStringCore f (n / 10) ++ [Nat.digitChar (n % 10)] := rfl

theorem natToStringCore_fuel (f₁ : Nat) : ∀ f₂ n : Nat, n < f₁ → n < f₂ →
    natToStringCore f₁ n = natToStringCore f₂ n := by
  induction f₁ with
  | zero => intro f₂ n h; omega
  | succ f ih =>
    intro f₂ n h₁ h₂
    match f₂, h₂ with
    | g + 1, _ =>
      by_cases hn : n < 10
      · rw [natToStringCore_succ, natToStringCore_succ, if_pos hn, if_pos hn]
      · have hdiv : n / 10 < n := Nat.div_lt_self (by omega) (by omega)
        rw [natToStringCore_succ, natToStringCore_succ, if_neg hn, if_neg hn,
          ih g (n / 10) (by omega) (by omega)]

/-- The digit list of `natToString`, with canonical fuel. -/
theorem natToString_data (n : Nat) : (natToString n).data = natToStringCore (n + 1) n := rfl

theorem natToStringCore_lt10 (n : Nat) (h : n < 10) :
    natToStringCore (n + 1) n = [Nat.digitChar n] := by
  rw [natToStringCore_succ, if_pos h]

theorem natToStringCore_ge10 (n : Nat) (h : ¬ n < 10) :
    natToStringCore (n + 1) n = natToStringCore (n / 10 + 1) (n / 10) ++ [Nat.digitChar (n % 10)] := by
  have hdiv : n / 10 < n := Nat.div_lt_self (by omega) (by omega)
  rw [natToStringCore_succ, if_neg h,
    natToStringCore_fuel n (n / 10 + 1) (n / 10) (by omega) (by omega)]

theorem natToString_all_digits (n : Nat) :
    ∀ c ∈ (natToString n).data, isDigitChar c = true := by
  induction n using Nat.strong_induction_on with
  | _ n ih =>
    rw [natToString_data]
    by_cases h : n < 10
    · rw [natToStringCore_lt10 n h]
      intro c hc
      simp at hc
      subst hc
      exact digitChar_isDigitChar n h
    · rw [natToStringCore_ge10 n h]
      intro c hc
      rcases List.mem_append.mp hc with h1 | h1
      · exact ih (n / 10) (Nat.div_lt_self (by omega) (by omega)) c h1
      · simp at h1
        subst h1
        exact digitChar_isDigitChar (n % 10) (Nat.mod_lt _ (by omega))

theorem parseNum_natToString (n : Nat) : parseNum (natToString n).data = n := by
  induction n using Nat.strong_induction_on with
  | _ n ih =>
    rw [natToString_data]
    by_cases h : n < 10
    · rw [natToStringCore_lt10 n h]
      show parseNum ([] ++ [Nat.digitChar n]) = n
      rw [parseNum_append_singleton, parseNum_nil, digitVal_digitChar n h]
      omega
    · rw [natToStringCore_ge10 n h]
      rw [show natToStringCore (n / 10 + 1) (n / 10) = (natToString (n / 10)).data from rfl]
      rw [parseNum_append_singleton, ih (n / 10) (Nat.div_lt_self (by omega) (by omega)),
        digitVal_digitChar (n % 10) (Nat.mod_lt _ (by omega))]
      omega

theorem natToString_inj {m n : Nat} (h : natToString m = natToString n) : m = n := by
  have := parseNum_natToString m
  rw [h, parseNum_natToString] at this
  omega

theorem natToString_length_le (k : Nat) (hk : 0 < k) :
    ∀ n : Nat, n < 10 ^ k → (natToString n).data.length ≤ k := by
  induction k with
  | zero => omega
  | succ k ih =>
    intro n hn
    rw [natToString_data]
    by_cases h : n < 10
    · rw [natToStringCore_lt10 n h]; simp
    · rw [natToStringCore_ge10 n h]
      rcases Nat.eq_zero_or_pos k with hk0 | hkpos
      · subst hk0; simp [pow_succ] at hn; omega
      · have hdn : n / 10 < 10 ^ k := by
          rw [Nat.div_lt_iff_lt_mul (by omega)]
          calc n < 10 ^ (k + 1) := hn
          _ = 10 ^ k * 10 := by ring
        have := ih hkpos (n / 10) hdn
        rw [show natToStringCore (n / 10 + 1) (n / 10) = (natToString (n / 10)).data from rfl]
        simp only [List.length_append, List.length_cons, List.length_nil]
        omega

theorem natToString_length_pos (n : Nat) : 0 < (natToString n).data.length := by
  rw [natToString_data]
  by_cases h : n < 10
  · rw [natToStringCore_lt10 n h]; simp
  · rw [natToStringCore_ge10 n h]; simp

theorem parseNum_replicate_zero (k : Nat) (xs : List Char) :
    parseNum (List.replicate k '0' ++ xs) = parseNum xs := by
  induction k with
  | zero => simp
  | succ k ih =>
    have h : List.replicate (k + 1) '0' ++ xs = '0' :: (List.replicate k '0' ++ xs) := by
      simp [List.replicate_succ]
    rw [h]
    show List.foldl _ (0 * 10 + digitVal '0') _ = _
    have h0 : (0 : Nat) * 10 + digitVal '0' = 0 := by decide
    rw [h0]
    exact ih

theorem zfill_data (s : String) (w : Nat) :
    (zfill s w).data = List.replicate (w - s.data.length) '0' ++ s.data := rfl

theorem zfill_length (s : String) (w : Nat) :
    (zfill s w).data.length = max w s.data.length := by
  rw [zfill_data]
  simp [List.length_append, List.length_replicate]
  omega

theorem parseNum_zfill (s : String) (w : Nat) :
    parseNum (zfill s w).data = parseNum s.data := by
  rw [zfill_data, parseNum_replicate_zero]

theorem zfill_all_digits (s : String) (w : Nat)
    (h : ∀ c ∈ s.data, isDigitChar c = true) :
    ∀ c ∈ (zfill s w).data, isDigitChar c = true := by
  rw [zfill_data]
  intro c hc
  rcases List.mem_append.mp hc with h1 | h1
  · rw [List.eq_of_mem_replicate h1]; decide
  · exact h c h1

theorem parseNum_lt_pow (l : List Char) (hd : ∀ c ∈ l, isDigitChar c = true) :
    parseNum l < 10 ^ l.length := by
  induction l using List.reverseRecOn with
  | nil => simp [parseNum]
  | append_singleton xs c ih =>
    rw [parseNum_append_singleton]
    have hc : digitVal c < 10 := digitVal_lt_10 (hd c (by simp))
    have hxs := ih (fun a ha => hd a (by simp [ha]))
    simp only [List.length_append, List.length_cons, List.length_nil, pow_succ]
    omega

theorem parseNum_inj : ∀ l₁ l₂ : List Char,
    (∀ c ∈ l₁, isDigitChar c = true) → (∀ c ∈ l₂, isDigitChar c = true) →
    l₁.length = l₂.length → parseNum l₁ = parseNum l₂ → l₁ = l₂ := by
  intro l₁
  induction l₁ using List.reverseRecOn with
  | nil =>
    intro l₂ _ _ hlen _
    symm
    exact List.eq_nil_of_length_eq_zero hlen.symm
  | append_singleton xs c ih =>
    intro l₂ hd₁ hd₂ hlen hp
    induction l₂ using List.reverseRecOn with
    | nil => simp at hlen
    | append_singleton ys d _ =>
      rw [parseNum_append_singleton, parseNum_append_singleton] at hp
      have hcv : digitVal c < 10 := digitVal_lt_10 (hd₁ c (by simp))
      have hdv : digitVal d < 10 := digitVal_lt_10 (hd₂ d (by simp))
      have heq1 : digitVal c = digitVal d := by omega
      have heq2 : parseNum xs = parseNum ys := by omega
      have hlen' : xs.length = ys.length := by
        simp at hlen; omega
      have hxy : xs = ys :=
        ih ys (fun a ha => hd₁ a (by simp [ha])) (fun a ha => hd₂ a (by simp [ha])) hlen' heq2
      subst hxy
      rw [digit_char_eq_of_digitVal_eq (hd₁ c (by simp)) (hd₂ d (by simp)) heq1]

/-! ### The Luhn check digit (claims C5, C9) -/

/-- The running sum described by the specification: digits least
significant first, positions at even 0-indexed distance from the end
doubled and reduced by 9 when the doubled value exceeds 9. -/
def specLuhnSum : Nat → List Nat → Nat
  | _, [] => 0
  | i, d :: r =>
    (if i % 2 = 0 then (if d * 2 > 9 then d * 2 - 9 else d * 2) else d) + specLuhnSum (i + 1) r

/-- The check digit exactly as the specification words it: extract the
digits, iterate from least significant, sum the adjusted values, and
return `(10 - (sum mod 10)) mod 10`. -/
def specCheckDigit (s : String) : Nat :=
  let ds := ((s.data.filter isDigitChar).map digitVal).reverse
  (10 - specLuhnSum 0 ds % 10) % 10

theorem luhnTerm_spec (i d : Nat) (h : d < 10) :
    luhnTerm i d = if i % 2 = 0 then (if d * 2 > 9 then d * 2 - 9 else d * 2) else d := by
  unfold luhnTerm
  by_cases hi : i % 2 = 0
  · rw [if_pos hi, if_pos hi]
    by_cases h2 : d * 2 > 9
    · rw [if_pos h2, if_neg (by omega)]
    · rw [if_neg h2, if_pos (by omega)]
  · rw [if_neg hi, if_neg hi, if_pos h]

theorem luhnFold (l : List Nat) : ∀ i acc, (∀ d ∈ l, d < 10) →
    (List.enumFrom i l).foldl (fun acc p => acc + luhnTerm p.1 p.2) acc = acc + specLuhnSum i l := by
  induction l with
  | nil => intro i acc _; simp [specLuhnSum]
  | cons d r ih =>
    intro i acc h
    rw [List.enumFrom_cons]
    simp only [List.foldl_cons]
    rw [ih (i + 1) _ (fun x hx => h x (by simp [hx]))]
    rw [luhnTerm_spec i d (h d (by simp))]
    show acc + _ + specLuhnSum (i + 1) r = acc + (_ + specLuhnSum (i + 1) r)
    omega

theorem calculate_luhn_eq_spec (s : String) : calculate_luhn s = specCheckDigit s := by
  have hd : ∀ d ∈ ((s.data.filter isDigitChar).map digitVal).reverse, d < 10 := by
    intro d hdm
    rw [List.mem_reverse] at hdm
    rcases List.mem_map.mp hdm with ⟨c, hc, hval⟩
    rw [← hval]
    exact digitVal_lt_10 (List.mem_filter.mp hc).2
  simp only [calculate_luhn, specCheckDigit]
  rw [show (List.enum : List Nat → List (Nat × Nat)) = List.enumFrom 0 from rfl]
  rw [luhnFold _ 0 0 hd, Nat.zero_add]

theorem calculate_luhn_le_9 (s : String) : calculate_luhn s ≤ 9 := by
  have h : ∀ m : Nat, (10 - m % 10) % 10 ≤ 9 := fun m => by omega
  simp only [calculate_luhn]
  exact h _

/-- **C5.** `calculate_luhn` implements the specified Luhn-style
algorithm (digits extracted with non-digits ignored, walked least
significant first, even positions doubled and reduced by 9, final digit
`(10 - sum % 10) % 10`), and its result is always a single decimal
digit in `[0, 9]`.  Determinism is intrinsic: the embedding is a pure
function of its argument. -/
theorem claim_C5_calculate_luhn_refines_spec (s : String) :
    calculate_luhn s = specCheckDigit s ∧ calculate_luhn s ≤ 9 :=
  ⟨calculate_luhn_eq_spec s, calculate_luhn_le_9 s⟩

/-- Model of Python `str.isdigit` on a single character: true for the
decimal digits and for the digit-like characters of the modelled
universe — the superscript digits (`'¹'`, `'²'`, `'³'`, `'⁰'`,
`'⁴'`–`'⁹'`) and the subscript digits (`'₀'`–`'₉'`) — on which `int()`
nevertheless raises.  Other Unicode digit-like characters are outside
the modelled universe. -/
def pyCharIsdigit (c : Char) : Bool :=
  isDigitChar c || c.toNat == 0xB2 || c.toNat == 0xB3 || c.toNat == 0xB9 ||
    c.toNat == 0x2070 || (0x2074 ≤ c.toNat && c.toNat ≤ 0x2079) ||
    (0x2080 ≤ c.toNat && c.toNat ≤ 0x2089)

/-- Model of Python `int(d)` on one character: succeeds exactly on a
decimal digit. -/
def pyIntChar (c : Char) : Option Nat :=
  if isDigitChar c then some (digitVal c) else none

/-- The comprehension `[int(d) for d in s if d.isdigit()]` applied to
an already-filtered character list: `none` models the `ValueError`
raised by `int` on a digit-like, non-decimal character. -/
def pyIntList : List Char → Option (List Nat)
  | [] => some []
  | c :: rest =>
    match pyIntChar c, pyIntList rest with
    | some d, some ds => some (d :: ds)
    | _, _ => none

/-- Fallible embedding of `calculate_luhn` (source lines 111–118) with
the Unicode-aware `isdigit` filter and the per-character `int` that can
raise: `none` models an escaping `ValueError`. -/
def calculate_luhn_py (s : String) : Option Nat :=
  match pyIntList (s.data.filter pyCharIsdigit) with
  | none => none
  | some digits =>
    some ((10 - (digits.reverse.enum.foldl (fun acc p => acc + luhnTerm p.1 p.2) 0) % 10) % 10)

theorem pyCharIsdigit_ascii {c : Char} (h : c.toNat < 128) :
    pyCharIsdigit c = isDigitChar c := by
  unfold pyCharIsdigit
  have h1 : (c.toNat == 0xB2) = false := by
    rw [beq_eq_false_iff_ne]; omega
  have h2 : (c.toNat == 0xB3) = false := by
    rw [beq_eq_false_iff_ne]; omega
  have h3 : (c.toNat == 0xB9) = false := by
    rw [beq_eq_false_iff_ne]; omega
  have h4 : (c.toNat == 0x2070) = false := by
    rw [beq_eq_false_iff_ne]; omega
  have h5 : (decide (0x2074 ≤ c.toNat)) = false := by
    rw [decide_eq_false_iff_not]; omega
  have h6 : (decide (0x2080 ≤ c.toNat)) = false := by
    rw [decide_eq_false_iff_not]; omega
  simp [h1, h2, h3, h4, h5, h6]

theorem pyIntList_of_digits : ∀ l : List Char, l.all isDigitChar = true →
    pyIntList l = some (l.map digitVal) := by
  intro l
  induction l with
  | nil => intro _; rfl
  | cons c rest ih =>
    intro h
    rw [List.all_cons, Bool.and_eq_true] at h
    unfold pyIntList pyIntChar
    rw [if_pos h.1, ih h.2]
    rfl

theorem filter_pyCharIsdigit_ascii {s : String}
    (h : s.data.all (fun c => decide (c.toNat < 128)) = true) :
    s.data.filter pyCharIsdigit = s.data.filter isDigitChar :=
  List.filter_congr (fun a ha => pyCharIsdigit_ascii (by
    have := List.all_eq_true.mp h a ha
    simpa using this))

/-- **C9, counterexample.** `calculate_luhn` is not total on all
strings: on `"²"` the filter keeps `'²'` (Python `'²'.isdigit()` is
`True`) and `int('²')` raises `ValueError`, modelled by the fallible
embedding returning `none`. -/
theorem claim_C9_counterexample : calculate_luhn_py "²" = none := by
  decide

/-- **C9, amended.** `calculate_luhn` never raises and returns a digit
in `[0, 9]` on every ASCII string: there non-digit characters are
filtered out before the loop, the result equals `calculate_luhn` of the
digit-only subsequence, and a string with no digit-like character at
all (ASCII or not) yields check digit 0 without raising; whenever it
returns at all its value is in `[0, 9]`.  It is not total on all
strings: a digit-like non-decimal character such as `'²'` passes the
`isdigit` filter and makes `int()` raise. -/
theorem claim_C9_calculate_luhn_ascii_total (s : String) :
    (s.data.all (fun c => decide (c.toNat < 128)) = true →
      calculate_luhn_py s = some (calculate_luhn s)) ∧
    (∀ r, calculate_luhn_py s = some r → r ≤ 9) ∧
    calculate_luhn s ≤ 9 ∧
    calculate_luhn s = calculate_luhn ⟨s.data.filter isDigitChar⟩ ∧
    (s.data.all (fun c => !(pyCharIsdigit c)) = true → calculate_luhn_py s = some 0) := by
  refine ⟨?_, ?_, calculate_luhn_le_9 s, ?_, ?_⟩
  · intro h
    unfold calculate_luhn_py
    rw [filter_pyCharIsdigit_ascii h]
    have halldig : (s.data.filter isDigitChar).all isDigitChar = true := by
      rw [List.all_eq_true]
      intro a ha
      exact (List.mem_filter.mp ha).2
    rw [pyIntList_of_digits _ halldig]
    rfl
  · intro r hr
    unfold calculate_luhn_py at hr
    split at hr
    · exact absurd hr (by simp)
    · simp only [Option.some.injEq] at hr
      omega
  · unfold calculate_luhn
    rw [show (String.mk (s.data.filter isDigitChar)).data = s.data.filter isDigitChar from rfl]
    rw [List.filter_filter]
    simp only [Bool.and_self]
  · intro h
    have hnil : s.data.filter pyCharIsdigit = [] := by
      rw [List.filter_eq_nil_iff]
      intro a ha
      have := List.all_eq_true.mp h a ha
      simp at this
      simp [this]
    unfold calculate_luhn_py
    rw [hnil]
    rfl

/-! ### Legacy folio validation (claim C4) -/

theorem length16_not_isEmpty {l : List Char} (h : l.length = 16) : l.isEmpty = false := by
  cases l with
  | nil => simp at h
  | cons a as => rfl

theorem validate_br1 {s : String} (h : (removeDashSpace s).data.length ≠ 16) :
    validate_legacy_folio s = (false, "Folio debe tener 16 dígitos") := by
  simp only [validate_legacy_folio]
  rw [if_pos h]

theorem validate_br2 {s : String} (h1 : (removeDashSpace s).data.length = 16)
    (h2 : pyIsdigit (removeDashSpace s) = false) :
    validate_legacy_folio s = (false, "Folio debe contener solo números") := by
  simp only [validate_legacy_folio]
  rw [if_neg (fun hc => hc h1), if_pos (by rw [h2]; rfl)]

theorem validate_br3 {s : String} (h1 : (removeDashSpace s).data.length = 16)
    (h2 : pyIsdigit (removeDashSpace s) = true)
    (h3 : legacyPrefix.data.isPrefixOf (removeDashSpace s).data = false) :
    validate_legacy_folio s = (false, "Formato de folio inválido") := by
  simp only [validate_legacy_folio]
  rw [if_neg (fun hc => hc h1), if_neg (by rw [h2]; exact Bool.false_ne_true),
    if_pos (by rw [h3]; rfl)]

theorem validate_br4 {s : String} (h1 : (removeDashSpace s).data.length = 16)
    (h2 : pyIsdigit (removeDashSpace s) = true)
    (h3 : legacyPrefix.data.isPrefixOf (removeDashSpace s).data = true)
    (h4 : parseNum (lastN (removeDashSpace s) 4).data < 1 ∨
      parseNum (lastN (removeDashSpace s) 4).data > 9999) :
    validate_legacy_folio s = (false, "Número de folio fuera de rango válido") := by
  simp only [validate_legacy_folio]
  rw [if_neg (fun hc => hc h1), if_neg (by rw [h2]; exact Bool.false_ne_true),
    if_neg (by rw [h3]; exact Bool.false_ne_true), if_pos h4]

theorem validate_br5 {s : String} (h1 : (removeDashSpace s).data.length = 16)
    (h2 : pyIsdigit (removeDashSpace s) = true)
    (h3 : legacyPrefix.data.isPrefixOf (removeDashSpace s).data = true)
    (h4 : ¬ (parseNum (lastN (removeDashSpace s) 4).data < 1 ∨
      parseNum (lastN (removeDashSpace s) 4).data > 9999)) :
    validate_legacy_folio s = (true, "Válido") := by
  simp only [validate_legacy_folio]
  rw [if_neg (fun hc => hc h1), if_neg (by rw [h2]; exact Bool.false_ne_true),
    if_neg (by rw [h3]; exact Bool.false_ne_true), if_neg h4]

theorem pyIsdigit_of_all {s : String} (h1 : s.data.length = 16)
    (h2 : s.data.all isDigitChar = true) : pyIsdigit s = true := by
  unfold pyIsdigit
  rw [length16_not_isEmpty h1, h2]
  rfl

/-- **C4.** `validate_legacy_folio` accepts a string iff, after
stripping spaces and dashes, it is exactly 16 decimal digits, starts
with `123456789012`, and its last four digits parse to an integer in
`[1, 9999]`; the string `123456789012` + `0000` is rejected; and the
four rules are applied in the stated order, the reported reason being
that of the first failing rule. -/
theorem claim_C4_validate_legacy_folio_characterization (s : String) :
    ((validate_legacy_folio s).1 = true ↔
      ((removeDashSpace s).data.length = 16 ∧
       (removeDashSpace s).data.all isDigitChar = true ∧
       legacyPrefix.data.isPrefixOf (removeDashSpace s).data = true ∧
       1 ≤ parseNum (lastN (removeDashSpace s) 4).data ∧
       parseNum (lastN (removeDashSpace s) 4).data ≤ 9999)) ∧
    (validate_legacy_folio ("123456789012" ++ "0000")).1 = false ∧
    ((removeDashSpace s).data.length ≠ 16 →
       validate_legacy_folio s = (false, "Folio debe tener 16 dígitos")) ∧
    ((removeDashSpace s).data.length = 16 → (removeDashSpace s).data.all isDigitChar = false →
       validate_legacy_folio s = (false, "Folio debe contener solo números")) ∧
    ((removeDashSpace s).data.length = 16 → (removeDashSpace s).data.all isDigitChar = true →
       legacyPrefix.data.isPrefixOf (removeDashSpace s).data = false →
       validate_legacy_folio s = (false, "Formato de folio inválido")) ∧
    ((removeDashSpace s).data.length = 16 → (removeDashSpace s).data.all isDigitChar = true →
       legacyPrefix.data.isPrefixOf (removeDashSpace s).data = true →
       (parseNum (lastN (removeDashSpace s) 4).data < 1 ∨
         parseNum (lastN (removeDashSpace s) 4).data > 9999) →
       validate_legacy_folio s = (false, "Número de folio fuera de rango válido")) := by
  refine ⟨?_, by decide, ?_, ?_, ?_, ?_⟩
  · constructor
    · intro htrue
      by_cases h1 : (removeDashSpace s).data.length = 16
      · by_cases h2 : (removeDashSpace s).data.all isDigitChar = true
        · have h2' := pyIsdigit_of_all h1 h2
          by_cases h3 : legacyPrefix.data.isPrefixOf (removeDashSpace s).data = true
          · by_cases h4 : parseNum (lastN (removeDashSpace s) 4).data < 1 ∨
              parseNum (lastN (removeDashSpace s) 4).data > 9999
            · rw [validate_br4 h1 h2' h3 h4] at htrue
              simp at htrue
            · exact ⟨h1, h2, h3, by omega, by omega⟩
          · have h3' : legacyPrefix.data.isPrefixOf (removeDashSpace s).data = false :=
              Bool.eq_false_iff.mpr h3
            rw [validate_br3 h1 h2' h3'] at htrue
            simp at htrue
        · have h2' : pyIsdigit (removeDashSpace s) = false := by
            have h2f : (removeDashSpace s).data.all isDigitChar = false := by simpa using h2
            unfold pyIsdigit
            rw [h2f]
            simp
          rw [validate_br2 h1 h2'] at htrue
          simp at htrue
      · rw [validate_br1 h1] at htrue
        simp at htrue
    · rintro ⟨h1, h2, h3, h4, h5⟩
      rw [validate_br5 h1 (pyIsdigit_of_all h1 h2) h3 (by omega)]
  · exact validate_br1
  · intro h1 h2
    refine validate_br2 h1 ?_
    unfold pyIsdigit
    rw [h2]
    simp
  · intro h1 h2 h3
    exact validate_br3 h1 (pyIsdigit_of_all h1 h2) h3
  · intro h1 h2 h3 h4
    exact validate_br4 h1 (pyIsdigit_of_all h1 h2) h3 h4

/-! ### Legacy folio allocation (claims C3, C7) -/

/-- Spec-side zero-padded 4-digit rendering of a number below 10000,
digit by digit. -/
def specPad4 (n : Nat) : String :=
  ⟨[Nat.digitChar (n / 1000 % 10), Nat.digitChar (n / 100 % 10),
    Nat.digitChar (n / 10 % 10), Nat.digitChar (n % 10)]⟩

theorem specPad4_all_digits (n : Nat) : ∀ c ∈ (specPad4 n).data, isDigitChar c = true := by
  intro c hc
  simp [specPad4] at hc
  rcases hc with h | h | h | h <;>
    (rw [h]; exact digitChar_isDigitChar _ (Nat.mod_lt _ (by omega)))

theorem parseNum_specPad4 (n : Nat) (h : n ≤ 9999) : parseNum (specPad4 n).data = n := by
  show parseNum ([Nat.digitChar (n / 1000 % 10), Nat.digitChar (n / 100 % 10),
    Nat.digitChar (n / 10 % 10)] ++ [Nat.digitChar (n % 10)]) = n
  rw [parseNum_append_singleton]
  rw [show [Nat.digitChar (n / 1000 % 10), Nat.digitChar (n / 100 % 10),
    Nat.digitChar (n / 10 % 10)] = [Nat.digitChar (n / 1000 % 10),
    Nat.digitChar (n / 100 % 10)] ++ [Nat.digitChar (n / 10 % 10)] from rfl]
  rw [parseNum_append_singleton]
  rw [show [Nat.digitChar (n / 1000 % 10), Nat.digitChar (n / 100 % 10)] =
    [Nat.digitChar (n / 1000 % 10)] ++ [Nat.digitChar (n / 100 % 10)] from rfl]
  rw [parseNum_append_singleton]
  rw [show [Nat.digitChar (n / 1000 % 10)] = [] ++ [Nat.digitChar (n / 1000 % 10)] from rfl]
  rw [parseNum_append_singleton, parseNum_nil]
  rw [digitVal_digitChar _ (Nat.mod_lt _ (by omega)),
    digitVal_digitChar _ (Nat.mod_lt _ (by omega)),
    digitVal_digitChar _ (Nat.mod_lt _ (by omega)),
    digitVal_digitChar _ (Nat.mod_lt _ (by omega))]
  omega

theorem zfill4_natToString_length {n : Nat} (h : n ≤ 9999) :
    (zfill (natToString n) 4).data.length = 4 := by
  rw [zfill_length]
  have := natToString_length_le 4 (by omega) n (by omega)
  omega

theorem zfill_natToString_eq_specPad4 (n : Nat) (h : n ≤ 9999) :
    zfill (natToString n) 4 = specPad4 n := by
  apply String.ext
  apply parseNum_inj
  · exact zfill_all_digits _ _ (natToString_all_digits n)
  · exact specPad4_all_digits n
  · rw [zfill4_natToString_length h]
    rfl
  · rw [parseNum_zfill, parseNum_natToString, parseNum_specPad4 n h]

/-- The digit-only character predicate used by `removeDashSpace` keeps a
digit string intact: spaces and dashes are not digits. -/
theorem removeDashSpace_of_digits {s : String}
    (h : ∀ c ∈ s.data, isDigitChar c = true) : removeDashSpace s = s := by
  apply String.ext
  show s.data.filter _ = s.data
  rw [List.filter_eq_self]
  intro a ha
  have hb := isDigitChar_bounds (h a ha)
  have hsp : (a == ' ') = false := by
    apply beq_eq_false_iff_ne.mpr
    intro hEq
    have hda := h a ha
    rw [hEq] at hda
    exact absurd hda (by decide)
  have hda : (a == '-') = false := by
    apply beq_eq_false_iff_ne.mpr
    intro hEq
    have hdd := h a ha
    rw [hEq] at hdd
    exact absurd hdd (by decide)
  rw [hsp, hda]
  rfl

theorem legacy_folio_shape_valid {t : String}
    (hlen : t.data.length = 4) (hdig : ∀ c ∈ t.data, isDigitChar c = true)
    (hlo : 1 ≤ parseNum t.data) (hhi : parseNum t.data ≤ 9999) :
    (validate_legacy_folio (legacyPrefix ++ t)).1 = true := by
  have hdata : (legacyPrefix ++ t).data = legacyPrefix.data ++ t.data := by
    simp [String.data_append]
  have halldig : ∀ c ∈ (legacyPrefix ++ t).data, isDigitChar c = true := by
    rw [hdata]
    intro c hc
    rcases List.mem_append.mp hc with h | h
    · have : c ∈ ("123456789012" : String).data := h
      fin_cases this <;> decide
    · exact hdig c h
  have hrm : removeDashSpace (legacyPrefix ++ t) = legacyPrefix ++ t :=
    removeDashSpace_of_digits halldig
  have hlen16 : (removeDashSpace (legacyPrefix ++ t)).data.length = 16 := by
    rw [hrm, hdata, List.length_append, hlen]
    rfl
  have hall : (removeDashSpace (legacyPrefix ++ t)).data.all isDigitChar = true := by
    rw [hrm]
    exact List.all_eq_true.mpr (fun a ha => halldig a ha)
  have hpre : legacyPrefix.data.isPrefixOf (removeDashSpace (legacyPrefix ++ t)).data = true := by
    rw [hrm, hdata]
    exact List.isPrefixOf_iff_prefix.mpr (List.prefix_append _ _)
  have hlast : lastN (removeDashSpace (legacyPrefix ++ t)) 4 = t := by
    rw [hrm]
    apply String.ext
    show ((legacyPrefix ++ t).data).drop ((legacyPrefix ++ t).data.length - 4) = t.data
    rw [hdata]
    rw [show (legacyPrefix.data ++ t.data).length - 4 = legacyPrefix.data.length from by
      simp [List.length_append, hlen]]
    exact List.drop_left _ _
  rw [validate_br5 hlen16 (pyIsdigit_of_all hlen16 hall) hpre (by rw [hlast]; omega)]

theorem digit_not_sign {c : Char} (h : isDigitChar c = true) :
    (c == '-') = false ∧ (c == '+') = false := by
  constructor <;>
    (apply beq_eq_false_iff_ne.mpr
     intro hEq
     rw [hEq] at h
     exact absurd h (by decide))

theorem pyIntSigned_digits {t : String} (hne : t.data ≠ [])
    (hdig : t.data.all isDigitChar = true) :
    pyIntSigned t = some ((parseNum t.data : Nat) : Int) := by
  cases hd : t.data with
  | nil => exact absurd hd hne
  | cons c rest =>
    rw [hd] at hdig
    rw [List.all_cons, Bool.and_eq_true] at hdig
    have hs := digit_not_sign hdig.1
    unfold pyIntSigned
    rw [hd]
    simp only [hs.1, hs.2, hdig.1, hdig.2]
    rfl

theorem pyStr_natCast (n : Nat) : pyStr (n : Int) = natToString n := by
  unfold pyStr
  rw [if_neg (by omega)]
  rfl

theorem zfill_py_of_digits {s : String} (h : ∀ c ∈ s.data, isDigitChar c = true)
    (w : Nat) : zfill_py s w = zfill s w := by
  cases hd : s.data with
  | nil => unfold zfill_py; rw [hd]
  | cons c rest =>
    have hs := digit_not_sign (h c (by rw [hd]; simp))
    unfold zfill_py
    rw [hd]
    simp only [hs.1, hs.2]
    rfl

theorem zfill_py_natToString (n w : Nat) :
    zfill_py (natToString n) w = zfill (natToString n) w :=
  zfill_py_of_digits (natToString_all_digits n) w

/-- **C3.** `get_next_legacy_folio`: with no stored folio under the
fixed prefix it returns `1234567890120001`; when the greatest stored
folio under the prefix is the prefix followed by a 4-digit tail of
value `t` with `1 ≤ t ≤ 9998`, it returns the 16-digit string with the
same prefix and tail `t + 1` zero-padded to 4 digits; when the greatest
stored tail is `9999` it fails with the sequence-exhausted error
instead of returning a folio. -/
theorem claim_C3_get_next_legacy_folio_behaviour :
    (∀ folios : List String,
       folios.filter (fun fo => legacyPrefix.data.isPrefixOf fo.data) = [] →
       get_next_legacy_folio folios = .ok "1234567890120001") ∧
    (∀ (folios : List String) (t : String),
       sqlMaxDesc (folios.filter (fun fo => legacyPrefix.data.isPrefixOf fo.data)) =
         some (legacyPrefix ++ t) →
       t.data.length = 4 → t.data.all isDigitChar = true →
       1 ≤ parseNum t.data → parseNum t.data ≤ 9998 →
       get_next_legacy_folio folios = .ok (legacyPrefix ++ specPad4 (parseNum t.data + 1))) ∧
    (∀ (folios : List String) (t : String),
       sqlMaxDesc (folios.filter (fun fo => legacyPrefix.data.isPrefixOf fo.data)) =
         some (legacyPrefix ++ t) →
       t.data.length = 4 → t.data.all isDigitChar = true →
       parseNum t.data = 9999 →
       get_next_legacy_folio folios =
         .error "Legacy folio sequence exhausted (max 9999)") := by
  have hlast : ∀ t : String, t.data.length = 4 → lastN (legacyPrefix ++ t) 4 = t := by
    intro t hlen
    apply String.ext
    show ((legacyPrefix ++ t).data).drop ((legacyPrefix ++ t).data.length - 4) = t.data
    rw [show (legacyPrefix ++ t).data = legacyPrefix.data ++ t.data from by
      simp [String.data_append]]
    rw [show (legacyPrefix.data ++ t.data).length - 4 = legacyPrefix.data.length from by
      simp [List.length_append, hlen]]
    exact List.drop_left _ _
  have hparse : ∀ t : String, t.data.length = 4 → t.data.all isDigitChar = true →
      pyIntSigned t = some ((parseNum t.data : Nat) : Int) := by
    intro t hlen hdig
    apply pyIntSigned_digits _ hdig
    intro hnil
    rw [hnil] at hlen
    simp at hlen
  refine ⟨?_, ?_, ?_⟩
  · intro folios hempty
    unfold get_next_legacy_folio
    rw [hempty]
    rfl
  · intro folios t hmax hlen hdig hlo hhi
    simp only [get_next_legacy_folio, hmax, hlast t hlen, hparse t hlen hdig]
    rw [if_neg (by omega)]
    rw [show ((parseNum t.data : Nat) : Int) + 1 = ((parseNum t.data + 1 : Nat) : Int) from by
      push_cast; ring]
    rw [pyStr_natCast, zfill_py_natToString, zfill_natToString_eq_specPad4 _ (by omega)]
  · intro folios t hmax hlen hdig hval
    simp only [get_next_legacy_folio, hmax, hlast t hlen, hparse t hlen hdig, hval]
    rw [if_pos (by omega)]

/-- **C7, counterexample.** The round-trip fails for a reachable store
state: with the single stored legacy folio `123456789012-999` (which
matches the `LIKE '123456789012%'` filter), Python's `int("-999")`
parses the signed tail to `-999`, the increment gives `-998`, the
exhaustion check `-998 > 9999` does not fire, and the allocator
*succeeds* with `123456789012-998` — a string `validate_legacy_folio`
rejects (15 characters once the dash is stripped). -/
theorem claim_C7_counterexample :
    get_next_legacy_folio ["123456789012-999"] = .ok "123456789012-998" ∧
    (validate_legacy_folio "123456789012-998").1 = false :=
  ⟨rfl, by decide⟩

/-- **C7, amended.** Every folio string successfully produced by
`get_next_legacy_folio` passes `validate_legacy_folio`, provided the
greatest stored folio under the fixed prefix — when one exists — has an
all-digit last-four-characters tail (as every folio the system itself
writes does); a store holding a folio with a signed tail such as
`123456789012-999` escapes this and yields an invalid folio. -/
theorem claim_C7_wellformed_roundtrip (folios : List String) (f : String)
    (hwf : ∀ m, sqlMaxDesc (folios.filter (fun fo => legacyPrefix.data.isPrefixOf fo.data)) =
      some m → pyIsdigit (lastN m 4) = true)
    (h : get_next_legacy_folio folios = .ok f) :
    (validate_legacy_folio f).1 = true := by
  unfold get_next_legacy_folio at h
  split at h
  · rename_i last_folio hmax
    have hdig := hwf last_folio hmax
    unfold pyIsdigit at hdig
    rw [Bool.and_eq_true] at hdig
    have hnil : (lastN last_folio 4).data ≠ [] := by
      intro hx
      rw [hx] at hdig
      simp at hdig
    have hall : (lastN last_folio 4).data.all isDigitChar = true := hdig.2
    rw [pyIntSigned_digits hnil hall] at h
    dsimp only at h
    split at h
    · exact absurd h (by simp)
    · rename_i hex
      simp only [Except.ok.injEq] at h
      rw [← h]
      rw [show ((parseNum (lastN last_folio 4).data : Nat) : Int) + 1 =
        ((parseNum (lastN last_folio 4).data + 1 : Nat) : Int) from by push_cast; ring]
      rw [pyStr_natCast, zfill_py_natToString]
      apply legacy_folio_shape_valid
      · exact zfill4_natToString_length (by omega)
      · exact zfill_all_digits _ _ (natToString_all_digits _)
      · rw [parseNum_zfill, parseNum_natToString]
        omega
      · rw [parseNum_zfill, parseNum_natToString]
        omega
  · simp only [Except.ok.injEq] at h
    rw [← h]
    decide

/-- **C7, amended, witness.** The round-trip at a concrete store whose
greatest stored folio has the digit tail `0007`: the allocated
`1234567890120008` validates. -/
theorem claim_C7_wellformed_roundtrip_witness :
    (validate_legacy_folio "1234567890120008").1 = true :=
  claim_C7_wellformed_roundtrip ["1234567890120007"] "1234567890120008"
    (fun m hm => by
      have hmm : some ("1234567890120007" : String) = some m := hm
      rw [← Option.some.inj hmm]
      decide)
    rfl

/-! ### The digital folio (claim C6) -/

/-- The checksum base of the digital folio, dash-free, exactly as the
code builds it. -/
def folioBase (year month user_id : Nat) : String :=
  "BJ" ++ natToString year ++ zfill (natToString month) 2 ++ zfill (natToString user_id) 6

/-- The 6-character id segment of a digital folio: characters 11–16
(after `BJ-` + 4-digit year + `-` + 2-digit month + `-`). -/
def idSegment (f : String) : String := ⟨(f.data.drop 11).take 6⟩

theorem generate_new_folio_format (year month user_id : Nat) :
    generate_new_folio year month user_id =
      "BJ-" ++ natToString year ++ "-" ++ zfill (natToString month) 2 ++ "-" ++
        zfill (natToString user_id) 6 ++ "-" ++
        natToString (calculate_luhn (folioBase year month user_id)) := rfl

theorem generate_new_folio_data_grouped (year month user_id : Nat) :
    (generate_new_folio year month user_id).data =
      ("BJ-".data ++ (natToString year).data ++ "-".data ++
        (zfill (natToString month) 2).data ++ "-".data) ++
      ((zfill (natToString user_id) 6).data ++ ("-".data ++
        (natToString (calculate_luhn (folioBase year month user_id))).data)) := by
  rw [generate_new_folio_format]
  simp [List.append_assoc]

theorem month_segment_length {m : Nat} (hm : m ≤ 12) :
    (zfill (natToString m) 2).data.length = 2 := by
  rw [zfill_length]
  have := natToString_length_le 2 (by omega) m (by omega)
  omega

theorem id_segment_length {uid : Nat} (h : uid ≤ 999999) :
    (zfill (natToString uid) 6).data.length = 6 := by
  rw [zfill_length]
  have := natToString_length_le 6 (by omega) uid (by omega)
  omega

theorem idSegment_generate_new_folio {year month user_id : Nat}
    (hy : (natToString year).data.length = 4) (hm : month ≤ 12) (hu : user_id ≤ 999999) :
    idSegment (generate_new_folio year month user_id) = zfill (natToString user_id) 6 := by
  unfold idSegment
  apply String.ext
  show ((generate_new_folio year month user_id).data.drop 11).take 6 = _
  rw [generate_new_folio_data_grouped]
  have hA : ("BJ-".data ++ (natToString year).data ++ "-".data ++
      (zfill (natToString month) 2).data ++ "-".data).length = 11 := by
    simp only [List.length_append]
    rw [hy, month_segment_length hm]
    rfl
  rw [List.drop_left' hA, List.take_left' (id_segment_length hu)]

theorem generate_new_folio_month_injective {y₁ m₁ y₂ m₂ uid : Nat}
    (hy₁ : (natToString y₁).data.length = 4) (hy₂ : (natToString y₂).data.length = 4)
    (hm₁ : m₁ ≤ 12) (hm₂ : m₂ ≤ 12)
    (hne : (y₁, m₁) ≠ (y₂, m₂)) :
    generate_new_folio y₁ m₁ uid ≠ generate_new_folio y₂ m₂ uid := by
  intro hEq
  apply hne
  have h := congrArg String.data hEq
  rw [generate_new_folio_data_grouped, generate_new_folio_data_grouped] at h
  simp only [List.append_assoc] at h
  have h1 : (natToString y₁).data ++ ("-".data ++
      ((zfill (natToString m₁) 2).data ++ ("-".data ++
        ((zfill (natToString uid) 6).data ++ ("-".data ++
          (natToString (calculate_luhn (folioBase y₁ m₁ uid))).data))))) =
    (natToString y₂).data ++ ("-".data ++
      ((zfill (natToString m₂) 2).data ++ ("-".data ++
        ((zfill (natToString uid) 6).data ++ ("-".data ++
          (natToString (calculate_luhn (folioBase y₂ m₂ uid))).data))))) :=
    (List.append_inj h rfl).2
  have h2 := List.append_inj h1 (by rw [hy₁, hy₂])
  have hyy : y₁ = y₂ := natToString_inj (String.ext h2.1)
  have h3 := (List.append_inj h2.2 rfl).2
  have h4 := List.append_inj h3 (by rw [month_segment_length hm₁, month_segment_length hm₂])
  have hmm : m₁ = m₂ := by
    have := congrArg parseNum h4.1
    rw [show (zfill (natToString m₁) 2).data = (zfill (natToString m₁) 2).data from rfl] at this
    rw [parseNum_zfill (natToString m₁) 2, parseNum_zfill (natToString m₂) 2,
      parseNum_natToString, parseNum_natToString] at this
    exact this
  rw [hyy, hmm]

/-- **C6.** `generate_new_folio` on a positive beneficiary id produces
exactly `BJ-year4-month2-zeroPad(id, 6)-checkDigit` with the check
digit computed by `calculate_luhn` over the dash-free base
`BJ + year4 + month2 + zeroPad(id, 6)`; for a fixed id and UTC month
the result is one fixed string (the embedding is a pure function of
year, month and id); in two different calendar months the same id
yields different folios whose embedded 6-digit id segment is
identical. -/
theorem claim_C6_generate_new_folio (y₁ m₁ y₂ m₂ uid : Nat) :
    (generate_new_folio y₁ m₁ uid =
      "BJ-" ++ natToString y₁ ++ "-" ++ zfill (natToString m₁) 2 ++ "-" ++
        zfill (natToString uid) 6 ++ "-" ++
        natToString (calculate_luhn (folioBase y₁ m₁ uid))) ∧
    ((natToString y₁).data.length = 4 → m₁ ≤ 12 → uid ≤ 999999 →
      idSegment (generate_new_folio y₁ m₁ uid) = zfill (natToString uid) 6) ∧
    ((natToString y₁).data.length = 4 → (natToString y₂).data.length = 4 →
      m₁ ≤ 12 → m₂ ≤ 12 → (y₁, m₁) ≠ (y₂, m₂) →
      generate_new_folio y₁ m₁ uid ≠ generate_new_folio y₂ m₂ uid) :=
  ⟨generate_new_folio_format y₁ m₁ uid,
   fun hy hm hu => idSegment_generate_new_folio hy hm hu,
   fun hy₁ hy₂ hm₁ hm₂ hne => generate_new_folio_month_injective hy₁ hy₂ hm₁ hm₂ hne⟩

/-! ### The registration handler (claims C1, C2, C8, C10)

The store is modelled as committed plus pending (inserted inside the
open transaction, not yet committed) rows of the two tables the handler
touches; `SELECT`s see both, `commit` moves pending rows to committed,
and — exactly as in the source, which never calls `rollback` — nothing
ever discards pending rows.  Every call into an external collaborator
that can raise is driven by a fault flag, and the side effects the
handler performs are recorded in order in a trace. -/

/-- Stand-in for `bcrypt.hashpw` (external collaborator; the handler
never inspects the hash). -/
def bcrypt_hashpw (password : String) : String := "bcrypt$" ++ password

/-- Embedding of `hash_for_duplicate_check` (source lines 89–91);
SHA-256 is an external collaborator, modelled as an injective tagging
function, which is all the duplicate check relies on. -/
def hash_for_duplicate_check (data : String) : String := "sha256$" ++ data

/-- Stand-in for `encrypt_data` (source lines 77–87); KMS is an
external collaborator and the ciphertext is never inspected. -/
def encrypt_data (data : String) : String := "kms$" ++ data

/-- Embedding of `upload_photo_to_s3` (source lines 93–109): the
Python function catches every exception and returns `None` on failure,
so its model returns an `Option` and has no error channel; on success
the key is `fotos_jovenes/{curp}_{timestamp}.jpg`. -/
def upload_photo_to_s3 (fails : Bool) (curp : String) (ts : Nat) : Option String :=
  if fails then none
  else some ("fotos_jovenes/" ++ curp ++ "_" ++ natToString ts ++ ".jpg")

/-- A row of the `Joven` table (the columns the folio subsystem and the
duplicate checks read). -/
structure JovenRow where
  id : Nat
  correo : String
  curp_hash : String
  curp_enc : String
  telefono : Option String
  foto : String
  contrasena : String
  deriving DecidableEq, Repr

/-- A row of the `Tarjeta` table. -/
structure TarjetaRow where
  id_usuario : Nat
  folio : String
  folio_legacy : Option String
  tipo : String
  estado : String
  deriving DecidableEq, Repr

/-- The relational store: committed rows, pending (in-transaction)
rows, and the next auto-increment id of `Joven`. -/
structure Store where
  committedJoven : List JovenRow
  pendingJoven : List JovenRow
  committedTarjeta : List TarjetaRow
  pendingTarjeta : List TarjetaRow
  nextId : Nat
  deriving DecidableEq, Repr

/-- Rows of `Joven` visible to a `SELECT` inside the transaction. -/
def visibleJoven (s : Store) : List JovenRow := s.committedJoven ++ s.pendingJoven

/-- Rows of `Tarjeta` visible to a `SELECT` inside the transaction. -/
def visibleTarjeta (s : Store) : List TarjetaRow := s.committedTarjeta ++ s.pendingTarjeta

/-- `conn.commit()`: pending rows become committed. -/
def commitStore (s : Store) : Store :=
  ⟨s.committedJoven ++ s.pendingJoven, [], s.committedTarjeta ++ s.pendingTarjeta, [], s.nextId⟩

/-- The parsed request body; `none` models an absent key, and optional
string fields are read with Python truthiness. -/
structure RequestBody where
  nombre : Option String := none
  apellidoPaterno : Option String := none
  curp : Option String := none
  correo : Option String := none
  password : Option String := none
  consentimientoAceptado : Option Bool := none
  folio_antiguo : Option String := none
  celular : Option String := none
  foto : Option String := none
  deriving DecidableEq, Repr

/-- The HTTP-level result: status code, message, and the success-body
fields of interest. -/
structure HandlerResult where
  statusCode : Nat
  message : String
  tipo : Option String := none
  folio_digital : Option String := none
  folio_legacy : Option String := none
  id : Option Nat := none
  deriving DecidableEq, Repr

/-- A side effect of the handler, recorded in execution order. -/
inductive Effect where
  | checkEmail
  | checkCurp
  | checkFolio
  | encryptData
  | s3Upload
  | insertJoven
  | insertTarjeta
  | commit
  deriving DecidableEq, Repr

/-- Which external calls can fail in a run: the fallible KMS encrypt
calls, the S3 upload, and each insert (with its MySQL errno) and
commit. -/
structure Faults where
  encryptCurpFail : Bool := false
  encryptTelFail : Bool := false
  uploadFail : Bool := false
  insertJovenErr : Option Nat := none
  commit1Fail : Bool := false
  insertTarjetaErr : Option Nat := none
  commit2Fail : Bool := false
  deriving DecidableEq, Repr

/-- The complete observable outcome of one invocation. -/
structure Outcome where
  result : HandlerResult
  store : Store
  trace : List Effect
  deriving DecidableEq, Repr

/-- The `except pymysql.MySQLError` handler (source lines 403–418):
errno 1062 is answered 409, anything else 500.  No rollback is
performed. -/
def mysqlErrorResult (errno : Nat) : HandlerResult :=
  if errno = 1062 then
    { statusCode := 409, message := "El correo o CURP ya están registrados" }
  else
    { statusCode := 500, message := "Error de base de datos" }

/-- Source lines 329–401: the tail of the handler after the folio
branch — encrypt the sensitive fields, resolve the photo key, insert
the `Joven` row, commit, generate the digital folio from the assigned
id, insert the `Tarjeta` row, and commit again.  Fault points follow
the source's exception handlers; none of them rolls back. -/
def handlerStage2 (f : Faults) (year month ts : Nat)
    (curp correo hashed_password curp_hash : String)
    (celular foto : Option String)
    (folio_legacy tipo_tarjeta : String)
    (s : Store) : Outcome :=
  let tr := [Effect.encryptData]
  if f.encryptCurpFail then
    ⟨{ statusCode := 500, message := "Error interno del servidor" }, s, tr⟩
  else
    let curp_encrypted := encrypt_data curp
    let tr := if pyTruthy celular then tr ++ [Effect.encryptData] else tr
    if pyTruthy celular && f.encryptTelFail then
      ⟨{ statusCode := 500, message := "Error interno del servidor" }, s, tr⟩
    else
      let telefono_encrypted :=
        if pyTruthy celular then some (encrypt_data (celular.getD "")) else none
      let foto_s3_key :=
        if pyTruthy foto then
          match upload_photo_to_s3 f.uploadFail curp ts with
          | some uploaded_key => uploaded_key
          | none => "default-avatar.JPG"
        else "default-avatar.JPG"
      let tr := if pyTruthy foto then tr ++ [Effect.s3Upload] else tr
      let tr := tr ++ [Effect.insertJoven]
      match f.insertJovenErr with
      | some errno => ⟨mysqlErrorResult errno, s, tr⟩
      | none =>
        let user_id := s.nextId
        let jrow : JovenRow :=
          { id := user_id, correo := correo, curp_hash := curp_hash,
            curp_enc := curp_encrypted, telefono := telefono_encrypted,
            foto := foto_s3_key, contrasena := hashed_password }
        let s := { s with pendingJoven := s.pendingJoven ++ [jrow], nextId := s.nextId + 1 }
        let tr := tr ++ [Effect.commit]
        if f.commit1Fail then
          ⟨{ statusCode := 500, message := "Error de base de datos" }, s, tr⟩
        else
          let s := commitStore s
          let folio_digital := generate_new_folio year month user_id
          let tr := tr ++ [Effect.insertTarjeta]
          match f.insertTarjetaErr with
          | some errno => ⟨mysqlErrorResult errno, s, tr⟩
          | none =>
            let trow : TarjetaRow :=
              { id_usuario := user_id, folio := folio_digital,
                folio_legacy := some folio_legacy, tipo := tipo_tarjeta,
                estado := "activa" }
            let s := { s with pendingTarjeta := s.pendingTarjeta ++ [trow] }
            let tr := tr ++ [Effect.commit]
            if f.commit2Fail then
              ⟨{ statusCode := 500, message := "Error de base de datos" }, s, tr⟩
            else
              let s := commitStore s
              ⟨{ statusCode := 201, message := "Joven registrado con éxito",
                 tipo := some tipo_tarjeta, folio_digital := some folio_digital,
                 folio_legacy := some folio_legacy, id := some user_id }, s, tr⟩

/-- Embedding of `lambda_handler` (source lines 202–429) after JSON
parsing, for a non-OPTIONS request: required-field and consent gates,
the duplicate checks, the legacy-folio branch, and `handlerStage2`.
The current UTC year/month and the upload timestamp are explicit
arguments. -/
def lambda_handler (f : Faults) (year month ts : Nat) (req : RequestBody) (s : Store) :
    Outcome :=
  match req.nombre, req.apellidoPaterno, req.curp, req.correo, req.password,
      req.consentimientoAceptado with
  | some _, some _, some curp, some correo, some password, some consent =>
    if consent = false then
      ⟨{ statusCode := 400,
         message := "El consentimiento del aviso de privacidad es obligatorio" }, s, []⟩
    else
      let hashed_password := bcrypt_hashpw password
      let curp_hash := hash_for_duplicate_check curp
      let folio_antiguo := req.folio_antiguo
      let tr := [Effect.checkEmail]
      if (visibleJoven s).any (fun j => j.correo == correo) then
        ⟨{ statusCode := 409, message := "El correo ya está registrado" }, s, tr⟩
      else
        let tr := tr ++ [Effect.checkCurp]
        if (visibleJoven s).any (fun j => j.curp_hash == curp_hash) then
          ⟨{ statusCode := 409, message := "El CURP ya está registrado" }, s, tr⟩
        else
          if pyTruthy folio_antiguo then
            let fa := folio_antiguo.getD ""
            let v := validate_legacy_folio fa
            if v.1 = false then
              ⟨{ statusCode := 400, message := "Folio antiguo inválido: " ++ v.2 }, s, tr⟩
            else
              let folio_legacy := removeDashSpace fa
              let tr := tr ++ [Effect.checkFolio]
              if (visibleTarjeta s).any (fun t => t.folio_legacy == some folio_legacy) then
                ⟨{ statusCode := 409, message := "Este folio antiguo ya está registrado" }, s, tr⟩
              else
                let o := handlerStage2 f year month ts curp correo hashed_password curp_hash
                  req.celular req.foto folio_legacy "mixta" s
                ⟨o.result, o.store, tr ++ o.trace⟩
          else
            match get_next_legacy_folio ((visibleTarjeta s).filterMap (fun t => t.folio_legacy)) with
            | .error _ =>
              ⟨{ statusCode := 500, message := "Error generando folio legacy" }, s, tr⟩
            | .ok folio_legacy =>
              let o := handlerStage2 f year month ts curp correo hashed_password curp_hash
                req.celular req.foto folio_legacy "digital" s
              ⟨o.result, o.store, tr ++ o.trace⟩
  | _, _, _, _, _, _ =>
    ⟨{ statusCode := 400, message := "Faltan campos requeridos" }, s, []⟩

/-! ### Handler lemmas -/

theorem handlerStage2_spec (f : Faults) (year month ts : Nat)
    (curp correo hp ch : String) (cel foto : Option String) (fl tp : String) (s : Store)
    (hpj : s.pendingJoven = []) (hpt : s.pendingTarjeta = []) :
    ((handlerStage2 f year month ts curp correo hp ch cel foto fl tp s).result.statusCode = 201 →
       (handlerStage2 f year month ts curp correo hp ch cel foto fl tp s).result.tipo = some tp ∧
       (handlerStage2 f year month ts curp correo hp ch cel foto fl tp s).result.folio_legacy =
         some fl ∧
       (handlerStage2 f year month ts curp correo hp ch cel foto fl tp s).store.committedTarjeta =
         s.committedTarjeta ++
           [⟨s.nextId, generate_new_folio year month s.nextId, some fl, tp, "activa"⟩] ∧
       (∃ j, (handlerStage2 f year month ts curp correo hp ch cel foto fl tp s).store.committedJoven =
         s.committedJoven ++ [j])) ∧
    ((handlerStage2 f year month ts curp correo hp ch cel foto fl tp s).result.statusCode ≠ 201 →
       (handlerStage2 f year month ts curp correo hp ch cel foto fl tp s).store.committedTarjeta =
         s.committedTarjeta ∧
       ((handlerStage2 f year month ts curp correo hp ch cel foto fl tp s).store.committedJoven =
          s.committedJoven ∨
        ∃ j, (handlerStage2 f year month ts curp correo hp ch cel foto fl tp s).store.committedJoven =
          s.committedJoven ++ [j])) := by
  unfold handlerStage2
  repeat' split
  all_goals refine ⟨fun h201 => ?_, fun hfail => ?_⟩
  all_goals try (exfalso; revert h201; simp [mysqlErrorResult]; split <;> simp; done)
  all_goals try (exfalso; revert h201; simp; done)
  all_goals try (exact absurd rfl hfail)
  all_goals try (exact ⟨rfl, Or.inl rfl⟩)
  all_goals simp only [commitStore, hpj, hpt, List.nil_append, List.append_nil]
  all_goals and_intros <;> first
    | rfl
    | trivial
    | exact ⟨_, rfl⟩
    | exact Or.inl rfl
    | exact Or.inr ⟨_, rfl⟩

theorem handlerStage2_tipo (f : Faults) (year month ts : Nat)
    (curp correo hp ch : String) (cel foto : Option String) (fl tp : String) (s : Store) :
    (handlerStage2 f year month ts curp correo hp ch cel foto fl tp s).result.statusCode = 201 →
    (handlerStage2 f year month ts curp correo hp ch cel foto fl tp s).result.tipo = some tp := by
  unfold handlerStage2
  repeat' split
  all_goals intro h201
  all_goals first
    | rfl
    | (exfalso; revert h201; simp [mysqlErrorResult]; split <;> simp)
    | (exfalso; revert h201; simp)

/-! ### Concrete scenarios -/

/-- A complete, consented registration request. -/
def sampleRequest : RequestBody :=
  { nombre := some "Ana", apellidoPaterno := some "Perez", curp := some "CURP1",
    correo := some "ana@mail.mx", password := some "pw",
    consentimientoAceptado := some true }

/-- The same request carrying a valid, dash-formatted legacy folio. -/
def mixedRequest : RequestBody :=
  { sampleRequest with folio_antiguo := some "1234-5678-9012-0005" }

/-- The same request carrying a photo. -/
def fotoRequest : RequestBody :=
  { sampleRequest with foto := some "AAAA" }

/-- An empty store whose next beneficiary id is 1. -/
def emptyStore : Store := ⟨[], [], [], [], 1⟩

/-- A store already holding a beneficiary with `sampleRequest`'s email. -/
def dupEmailStore : Store :=
  ⟨[⟨7, "ana@mail.mx", "h", "e", none, "f", "p"⟩], [], [], [], 8⟩

/-! ### Claim C1 -/

/-- **C1, counterexample.** A registration in which the `Tarjeta` insert
fails ends in a 500 error, yet the beneficiary row — committed by the
first `conn.commit()` at source line 370, with no rollback anywhere —
remains observable; the claimed all-or-nothing transaction does not
hold. -/
theorem claim_C1_counterexample :
    (lambda_handler { insertTarjetaErr := some 0 } 2025 10 0 sampleRequest
      emptyStore).result.statusCode = 500 ∧
    (lambda_handler { insertTarjetaErr := some 0 } 2025 10 0 sampleRequest
      emptyStore).store.committedJoven ≠ [] ∧
    (lambda_handler { insertTarjetaErr := some 0 } 2025 10 0 sampleRequest
      emptyStore).store.committedTarjeta = [] := by
  decide

/-- **C1, amended.** A failed registration never leaves a committed
card row, but the beneficiary insert is committed on its own before the
card insert: a failure after that first commit (digital-folio/card
stage) leaves the committed beneficiary row observable with no card
row.  Started on a store with no pending rows, any non-201 outcome
leaves the committed `Tarjeta` rows untouched, and the committed
`Joven` rows either untouched or extended by exactly the one row of
this request. -/
theorem claim_C1_failed_registration_store (f : Faults) (year month ts : Nat)
    (req : RequestBody) (s : Store)
    (hpj : s.pendingJoven = []) (hpt : s.pendingTarjeta = [])
    (hfail : (lambda_handler f year month ts req s).result.statusCode ≠ 201) :
    (lambda_handler f year month ts req s).store.committedTarjeta = s.committedTarjeta ∧
    ((lambda_handler f year month ts req s).store.committedJoven = s.committedJoven ∨
     ∃ j, (lambda_handler f year month ts req s).store.committedJoven =
       s.committedJoven ++ [j]) := by
  revert hfail
  unfold lambda_handler
  dsimp only
  repeat' split
  all_goals intro hfail
  all_goals first
    | exact ⟨rfl, Or.inl rfl⟩
    | exact (handlerStage2_spec _ _ _ _ _ _ _ _ _ _ _ _ _ hpj hpt).2 hfail

/-- **C1, amended, witness.** The amended statement at the concrete
failing-card-insert scenario. -/
theorem claim_C1_failed_registration_store_witness :
    (lambda_handler { insertTarjetaErr := some 0 } 2025 10 0 sampleRequest
      emptyStore).store.committedTarjeta = emptyStore.committedTarjeta ∧
    ((lambda_handler { insertTarjetaErr := some 0 } 2025 10 0 sampleRequest
       emptyStore).store.committedJoven = emptyStore.committedJoven ∨
     ∃ j, (lambda_handler { insertTarjetaErr := some 0 } 2025 10 0 sampleRequest
       emptyStore).store.committedJoven = emptyStore.committedJoven ++ [j]) :=
  claim_C1_failed_registration_store { insertTarjetaErr := some 0 } 2025 10 0
    sampleRequest emptyStore rfl rfl (by decide)

/-! ### Claim C2 -/

/-- **C2, counterexample.** A successful registration with a valid,
unused supplied legacy folio returns the card type `"mixta"` (the
code's Spanish literal at source line 313), not the string `"mixed"`
the claim names. -/
theorem claim_C2_counterexample :
    (lambda_handler {} 2025 10 0 mixedRequest emptyStore).result.statusCode = 201 ∧
    pyTruthy mixedRequest.folio_antiguo = true ∧
    (lambda_handler {} 2025 10 0 mixedRequest emptyStore).result.tipo ≠ some "mixed" ∧
    (lambda_handler {} 2025 10 0 mixedRequest emptyStore).result.tipo = some "mixta" := by
  decide

/-- **C2, amended.** Every successful (201) registration returns the
card type `"mixta"` exactly when the caller supplied a truthy legacy
folio, and `"digital"` exactly when it did not; no other card type is
ever returned on success. -/
theorem claim_C2_cardType_on_success (f : Faults) (year month ts : Nat)
    (req : RequestBody) (s : Store)
    (h201 : (lambda_handler f year month ts req s).result.statusCode = 201) :
    (pyTruthy req.folio_antiguo = true →
      (lambda_handler f year month ts req s).result.tipo = some "mixta") ∧
    (pyTruthy req.folio_antiguo = false →
      (lambda_handler f year month ts req s).result.tipo = some "digital") := by
  revert h201
  unfold lambda_handler
  dsimp only
  repeat' split
  all_goals intro h201
  all_goals first
    | (exfalso; revert h201; simp; done)
    | (refine ⟨fun hT => ?_, fun hF => ?_⟩ <;> first
        | exact handlerStage2_tipo _ _ _ _ _ _ _ _ _ _ _ _ _ h201
        | simp_all)

/-- **C2, amended, witness.** The amended statement at the concrete
successful mixed registration. -/
theorem claim_C2_cardType_on_success_witness :
    (pyTruthy mixedRequest.folio_antiguo = true →
      (lambda_handler {} 2025 10 0 mixedRequest emptyStore).result.tipo = some "mixta") ∧
    (pyTruthy mixedRequest.folio_antiguo = false →
      (lambda_handler {} 2025 10 0 mixedRequest emptyStore).result.tipo = some "digital") :=
  claim_C2_cardType_on_success {} 2025 10 0 mixedRequest emptyStore (by decide)

/-! ### Claim C8 -/

/-- Effects that mutate the store (inserts, commits, the blob upload)
or encrypt sensitive data. -/
def isMutationOrEncryption : Effect → Bool
  | .encryptData => true
  | .s3Upload => true
  | .insertJoven => true
  | .insertTarjeta => true
  | .commit => true
  | _ => false

/-- **C8.** In every execution, no store mutation and no encryption
happens before the email duplicate check, nor before the national-id
hash duplicate check (the portion of the trace before each check is
free of mutating/encrypting effects — in particular, executions that
never reach a check never mutate or encrypt at all); and a request
whose email already exists in the store is answered 409 with the store
untouched and a trace containing only the email check: no encryption
and no write happened. -/
theorem claim_C8_duplicate_checks_before_writes (f : Faults) (year month ts : Nat)
    (req : RequestBody) (s : Store) :
    (((lambda_handler f year month ts req s).trace.takeWhile
        (fun e => e != Effect.checkEmail)).all
      (fun e => !(isMutationOrEncryption e)) = true) ∧
    (((lambda_handler f year month ts req s).trace.takeWhile
        (fun e => e != Effect.checkCurp)).all
      (fun e => !(isMutationOrEncryption e)) = true) ∧
    (∀ correo, req.correo = some correo →
      req.nombre.isSome = true → req.apellidoPaterno.isSome = true →
      req.curp.isSome = true → req.password.isSome = true →
      req.consentimientoAceptado = some true →
      (visibleJoven s).any (fun j => j.correo == correo) = true →
      lambda_handler f year month ts req s =
        ⟨{ statusCode := 409, message := "El correo ya está registrado" }, s,
          [Effect.checkEmail]⟩) := by
  refine ⟨?_, ?_, ?_⟩
  · unfold lambda_handler
    dsimp only
    repeat' split
    all_goals rfl
  · unfold lambda_handler
    dsimp only
    repeat' split
    all_goals rfl
  · intro correo hco hn hap hcu hpw hcons hdup
    obtain ⟨nv, hnv⟩ := Option.isSome_iff_exists.mp hn
    obtain ⟨av, hav⟩ := Option.isSome_iff_exists.mp hap
    obtain ⟨cv, hcv⟩ := Option.isSome_iff_exists.mp hcu
    obtain ⟨pv, hpv⟩ := Option.isSome_iff_exists.mp hpw
    unfold lambda_handler
    rw [hnv, hav, hcv, hco, hpv, hcons]
    dsimp only
    rw [if_neg (by simp), if_pos hdup]

/-! ### Claim C10 -/

theorem handlerStage2_uploadFail_eq (f : Faults) (year month ts : Nat)
    (curp correo hp ch : String) (cel foto : Option String) (fl tp : String) (s : Store)
    (hfoto : pyTruthy foto = true) :
    (handlerStage2 { f with uploadFail := true } year month ts curp correo hp ch cel foto
        fl tp s).result =
      (handlerStage2 { f with uploadFail := true } year month ts curp correo hp ch cel none
        fl tp s).result ∧
    (handlerStage2 { f with uploadFail := true } year month ts curp correo hp ch cel foto
        fl tp s).store =
      (handlerStage2 { f with uploadFail := true } year month ts curp correo hp ch cel none
        fl tp s).store := by
  unfold handlerStage2
  rw [show pyTruthy none = false from rfl, hfoto]
  dsimp only
  rw [show upload_photo_to_s3 true curp ts = none from rfl]
  repeat' split
  all_goals first
    | exact ⟨rfl, rfl⟩
    | contradiction
    | exact absurd rfl (by assumption)

/-- **C10.** A photo-upload failure never aborts registration:
`upload_photo_to_s3` catches every exception and returns `None` (in the
model, an `Option` with no error channel), and a run whose upload fails
produces exactly the same result and the same store as the run of the
same request without a photo — in particular the persisted beneficiary
row carries the fixed fallback key `default-avatar.JPG`, which is also
what a photo-less request stores. -/
theorem claim_C10_photo_upload_failure_harmless (f : Faults) (year month ts : Nat)
    (req : RequestBody) (s : Store) (hfoto : pyTruthy req.foto = true) :
    (lambda_handler { f with uploadFail := true } year month ts req s).result =
      (lambda_handler { f with uploadFail := true } year month ts
        { req with foto := none } s).result ∧
    (lambda_handler { f with uploadFail := true } year month ts req s).store =
      (lambda_handler { f with uploadFail := true } year month ts
        { req with foto := none } s).store := by
  obtain ⟨nom, ap, cu, co, pw, cons, fa, cel, ft⟩ := req
  unfold lambda_handler
  dsimp only
  repeat' split
  all_goals first
    | exact ⟨rfl, rfl⟩
    | exact handlerStage2_uploadFail_eq _ _ _ _ _ _ _ _ _ _ _ _ _ hfoto
    | contradiction
    | exact absurd rfl (by assumption)

/-- **C10, witness.** The equivalence at a concrete request with a
photo, plus the concrete observations: the failed-upload run still
succeeds with 201 and persists the fallback photo key. -/
theorem claim_C10_photo_upload_failure_harmless_witness :
    ((lambda_handler { uploadFail := true } 2025 10 0 fotoRequest emptyStore).result =
       (lambda_handler { uploadFail := true } 2025 10 0
         { fotoRequest with foto := none } emptyStore).result ∧
     (lambda_handler { uploadFail := true } 2025 10 0 fotoRequest emptyStore).store =
       (lambda_handler { uploadFail := true } 2025 10 0
         { fotoRequest with foto := none } emptyStore).store) ∧
    (lambda_handler { uploadFail := true } 2025 10 0 fotoRequest
      emptyStore).result.statusCode = 201 ∧
    ((lambda_handler { uploadFail := true } 2025 10 0 fotoRequest
      emptyStore).store.committedJoven.map (fun j => j.foto)) = ["default-avatar.JPG"] :=
  ⟨claim_C10_photo_upload_failure_harmless { uploadFail := true } 2025 10 0 fotoRequest
      emptyStore (by decide),
   by decide, by decide⟩

end RegistroJoven
